import Mathlib

/-!
Verification of the collision-detection core of `signalk-cpa-tcpa-plugin`
(`src/index.js`), shallowly embedded in Lean.

Modelling conventions:
* JS numbers are modelled as real numbers (`ℝ`); quantities that the code can
  set to `Infinity` (`cpaDistance`, `tcpaSeconds`) are modelled as `EReal`,
  with `⊤` standing for `Infinity`.  `NaN` has no counterpart in `ℝ`, so the
  `isNaN`/`typeof` guards of the source, which can only fire on `NaN` or
  non-number inputs, are vacuous here; `null`/`undefined` data is modelled
  with `Option`.
* JS objects used as string-keyed maps (`state.collisions`,
  `state.previousPositions`) are modelled as association lists
  `List (String × _)`.
* Debug logging, ANSI colours and the `state.stats` counters are pure
  observability and are not modelled; neither are the SignalK host calls
  (`app.getPath` is abstracted as a `String → Option VesselData` provider,
  and notification publication as the returned `AlarmEvent`).
-/

open scoped Classical

noncomputable section

/-! ### Constants (`GEO` and `DETECTION`, src/index.js lines 149-173) -/

def MEAN_RADIUS_M : ℝ := 6371008.8

def ANGLE_TO_RAD : ℝ := Real.pi / 180

def TO_DEGREES : ℝ := 180 / Real.pi

def RELATIVE_VELOCITY_FLOOR : ℝ := 0.01

def MAX_VESSEL_SPEED_MPS : ℝ := 30

def JUMP_SPEED_FACTOR : ℝ := 1.5

def LAT_BOUND : ℝ := 90

def LON_BOUND : ℝ := 180

def VESSEL_TRACKING_LIMIT : ℕ := 1000

def CLEANUP_FREQUENCY : ℕ := 100

/-! ### Data model -/

/-- A latitude/longitude pair in degrees. -/
structure Position where
  latitude : ℝ
  longitude : ℝ

/-- The snapshot produced by `getVesselData`: a position (guaranteed
numeric by `getVesselData`, but `Option` here because the collision
routines re-check it), optional course (radians) and speed (m/s), and a
timestamp in milliseconds.  The unused `length`/`beam` fields are omitted. -/
structure VesselData where
  position : Option Position
  course : Option ℝ
  speed : Option ℝ
  timestamp : ℝ

/-- Result record of `calculateCPA` (src/index.js lines 250-327). -/
structure CPAResult where
  cpaDistance : EReal
  tcpaSeconds : EReal
  diverging : Bool
  relativeSpeed : ℝ
  parallelCourse : Bool

/-! ### Geodetic math -/

/-- JS `Math.atan2 y x` (result in `(-π, π]`; `atan2 0 0 = 0`). -/
def atan2 (y x : ℝ) : ℝ :=
  if 0 < x then Real.arctan (y / x)
  else if x < 0 then
    (if 0 ≤ y then Real.arctan (y / x) + Real.pi else Real.arctan (y / x) - Real.pi)
  else if 0 < y then Real.pi / 2
  else if y < 0 then -(Real.pi / 2)
  else 0

/-- The numeric core of `haversineDistance` (src/index.js lines 182-202),
for positions that passed the `typeof`/`NaN` guards. -/
def haversineCore (pFrom pTo : Position) : ℝ :=
  let lat1Rad := pFrom.latitude * ANGLE_TO_RAD
  let lat2Rad := pTo.latitude * ANGLE_TO_RAD
  let deltaLat := (pTo.latitude - pFrom.latitude) * ANGLE_TO_RAD
  let deltaLon := (pTo.longitude - pFrom.longitude) * ANGLE_TO_RAD
  let halfDeltaLatSin := Real.sin (deltaLat / 2)
  let halfDeltaLonSin := Real.sin (deltaLon / 2)
  let haversineA := halfDeltaLatSin * halfDeltaLatSin +
    Real.cos lat1Rad * Real.cos lat2Rad * halfDeltaLonSin * halfDeltaLonSin
  let angularDist := 2 * atan2 (Real.sqrt haversineA) (Real.sqrt (1 - haversineA))
  MEAN_RADIUS_M * angularDist

/-- `haversineDistance` (src/index.js lines 182-202): `none` models the
`NaN` returned on a missing position. -/
def haversineDistance : Option Position → Option Position → Option ℝ
  | some p1, some p2 => some (haversineCore p1 p2)
  | _, _ => none

/-- `calculateDistance` (src/index.js lines 207-212): `null` exactly when
`haversineDistance` is `NaN`, i.e. when a position is missing. -/
def calculateDistance (pFrom pTo : Option Position) : Option ℝ :=
  haversineDistance pFrom pTo

/-- JS `x % m` for the nonnegative operands used by `computeForwardAzimuth`. -/
def jsMod (x m : ℝ) : ℝ := x - m * (⌊x / m⌋ : ℝ)

/-- `computeForwardAzimuth` (src/index.js lines 219-244). -/
def computeForwardAzimuth : Option Position → Option Position → Option ℝ
  | some origin, some destination =>
    let originLatRad := origin.latitude * ANGLE_TO_RAD
    let destLatRad := destination.latitude * ANGLE_TO_RAD
    let lonDiffRad := (destination.longitude - origin.longitude) * ANGLE_TO_RAD
    let eastComponent := Real.sin lonDiffRad * Real.cos destLatRad
    let northComponent := Real.cos originLatRad * Real.sin destLatRad -
      Real.sin originLatRad * Real.cos destLatRad * Real.cos lonDiffRad
    let azimuthRad := atan2 eastComponent northComponent
    some (jsMod (azimuthRad * TO_DEGREES + 360) 360)
  | _, _ => none

/-! ### CPA/TCPA (`calculateCPA`, src/index.js lines 250-327) -/

/-- `relVelX` of src/index.js lines 266-272: east component of vessel 2's
velocity relative to vessel 1 (courses in radians, speeds in m/s). -/
def relVelX (c1 s1 c2 s2 : ℝ) : ℝ := s2 * Real.sin c2 - s1 * Real.sin c1

/-- `relVelY` of src/index.js lines 267-273: north component of the
relative velocity. -/
def relVelY (c1 s1 c2 s2 : ℝ) : ℝ := s2 * Real.cos c2 - s1 * Real.cos c1

/-- `relSpeed` of src/index.js line 274: magnitude of the relative velocity. -/
def relSpeedOf (c1 s1 c2 s2 : ℝ) : ℝ :=
  Real.sqrt (relVelX c1 s1 c2 s2 * relVelX c1 s1 c2 s2 +
    relVelY c1 s1 c2 s2 * relVelY c1 s1 c2 s2)

/-- `relPosX` of src/index.js line 284: east offset of vessel 2 from
vessel 1 on the local tangent plane, in meters. -/
def relPosX (p1 p2 : Position) : ℝ :=
  ((p2.longitude - p1.longitude) * ANGLE_TO_RAD) *
    Real.cos ((p1.latitude + p2.latitude) / 2 * ANGLE_TO_RAD) * MEAN_RADIUS_M

/-- `relPosY` of src/index.js line 285: north offset in meters. -/
def relPosY (p1 p2 : Position) : ℝ :=
  ((p2.latitude - p1.latitude) * ANGLE_TO_RAD) * MEAN_RADIUS_M

/-- `currentDist` of src/index.js line 289: tangent-plane magnitude of the
current separation. -/
def currentDistOf (p1 p2 : Position) : ℝ :=
  Real.sqrt (relPosX p1 p2 * relPosX p1 p2 + relPosY p1 p2 * relPosY p1 p2)

/-- Raw `tcpaSeconds` of src/index.js lines 301-302:
`-(p·v)/|v|²` before the sign check. -/
def rawTcpaOf (p1 p2 : Position) (c1 s1 c2 s2 : ℝ) : ℝ :=
  -(relPosX p1 p2 * relVelX c1 s1 c2 s2 + relPosY p1 p2 * relVelY c1 s1 c2 s2) /
    (relVelX c1 s1 c2 s2 * relVelX c1 s1 c2 s2 +
      relVelY c1 s1 c2 s2 * relVelY c1 s1 c2 s2)

/-- The arithmetic of `calculateCPA` after all presence/validity guards
(src/index.js lines 264-327). -/
def cpaCore (p1 p2 : Position) (c1 s1 c2 s2 : ℝ) : CPAResult :=
  if relSpeedOf c1 s1 c2 s2 < RELATIVE_VELOCITY_FLOOR then
    { cpaDistance := ((currentDistOf p1 p2 : ℝ) : EReal)
      tcpaSeconds := ⊤
      diverging := false
      relativeSpeed := 0
      parallelCourse := true }
  else if rawTcpaOf p1 p2 c1 s1 c2 s2 < 0 then
    { cpaDistance := ⊤
      tcpaSeconds := (0 : EReal)
      diverging := true
      relativeSpeed := relSpeedOf c1 s1 c2 s2
      parallelCourse := false }
  else
    let t := rawTcpaOf p1 p2 c1 s1 c2 s2
    let cpaX := relPosX p1 p2 + relVelX c1 s1 c2 s2 * t
    let cpaY := relPosY p1 p2 + relVelY c1 s1 c2 s2 * t
    { cpaDistance := ((Real.sqrt (cpaX * cpaX + cpaY * cpaY) : ℝ) : EReal)
      tcpaSeconds := ((t : ℝ) : EReal)
      diverging := false
      relativeSpeed := relSpeedOf c1 s1 c2 s2
      parallelCourse := false }

/-- `calculateCPA` (src/index.js lines 250-327): `none` when either
position, course or speed is missing (`null`/`undefined`/`NaN`). -/
def calculateCPA (vessel1 vessel2 : VesselData) : Option CPAResult :=
  match vessel1.position, vessel2.position with
  | some p1, some p2 =>
    match vessel1.course, vessel1.speed, vessel2.course, vessel2.speed with
    | some c1, some s1, some c2, some s2 => some (cpaCore p1 p2 c1 s1 c2 s2)
    | _, _, _, _ => none
  | _, _ => none

/-! ### Input validation (src/index.js lines 336-418) -/

/-- Tags for the violation strings pushed by `validateVesselUpdate`; the
interpolated message text is not modelled. -/
inductive Violation
  | latitudeOutOfBounds
  | longitudeOutOfBounds
  | negativeSpeed
  | courseOutOfRange
deriving DecidableEq

/-- `validateVesselUpdate` (src/index.js lines 336-379), as the list of
violations (`errors`); the result is `valid` iff the list is empty.  The
`typeof`/`isNaN` guards cannot fire on `ℝ` values and are omitted. -/
def validateVesselUpdate (vesselData : VesselData) : List Violation :=
  (match vesselData.position with
   | none => []
   | some pos =>
     (if |pos.latitude| > LAT_BOUND then [Violation.latitudeOutOfBounds] else []) ++
     (if |pos.longitude| > LON_BOUND then [Violation.longitudeOutOfBounds] else [])) ++
  (match vesselData.speed with
   | none => []
   | some s => if s < 0 then [Violation.negativeSpeed] else []) ++
  (match vesselData.course with
   | none => []
   | some c => if c < 0 ∨ c > 2 * Real.pi then [Violation.courseOutOfRange] else [])

/-- `validateVesselData` (src/index.js lines 656-661). -/
def validateVesselData (vesselData : VesselData) : Bool :=
  vesselData.position.isSome && decide (validateVesselUpdate vesselData = [])

/-- A stored previous-position entry (`{position, timestamp}`). -/
structure PrevPos where
  position : Position
  timestamp : ℝ

/-- `detectPositionJump` (src/index.js lines 384-418), reduced to the
`jumped` flag (the other returned fields are logging only).  A zero
timestamp is falsy in JS, hence the `= 0` guards. -/
def detectPositionJump (vesselData : VesselData) (previousData : Option PrevPos) : Bool :=
  match previousData with
  | none => false
  | some prev =>
    if prev.timestamp = 0 then false
    else
      match vesselData.position with
      | none => false
      | some pos =>
        if vesselData.timestamp = 0 then false
        else
          let distance := haversineCore prev.position pos
          let timeDelta := (vesselData.timestamp - prev.timestamp) / 1000
          if timeDelta ≤ 0 then false
          else if distance / timeDelta > MAX_VESSEL_SPEED_MPS * JUMP_SPEED_FACTOR then true
          else false

/-- The plugin configuration after `plugin.start` merges defaults
(`mergedConfig`, src/index.js lines 1165-1178); `posFreshBefore` models
`timeouts.PosFreshBefore` in seconds. -/
structure Options where
  safePassingDistanceMeters : ℝ
  alarmHysteresisMeters : ℝ
  timeWindowMinutes : ℝ
  rangeMeters : ℝ
  posFreshBefore : ℝ

/-- `isDataFresh` (src/index.js lines 646-651); `now` models `Date.now()`. -/
def isDataFresh (opts : Options) (now : ℝ) (vesselData : VesselData) : Bool :=
  if vesselData.timestamp = 0 then false
  else
    let age := (now - vesselData.timestamp) / 1000
    if -60 ≤ age ∧ age ≤ opts.posFreshBefore then true else false

/-! ### Detector state (`createCollisionDetector`, src/index.js lines 427-446) -/

inductive DetectionMethod
  | CPA
  | GEOMETRIC
deriving DecidableEq

/-- A threat record as stored in `state.collisions`; fields absent for a
given method are `none` (JS `undefined`). -/
structure ThreatRecord where
  method : DetectionMethod
  cpaDistance : Option EReal := none
  tcpaMinutes : Option EReal := none
  relativeSpeed : Option ℝ := none
  parallelCourse : Bool := false
  bearing : Option ℝ := none
  distance : Option ℝ := none
  targetCourse : Option ℝ := none
  targetSpeed : Option ℝ := none
  vesselId : String := ""
  position : Option Position := none

/-- Key lookup in a JS-object-as-map modelled as an association list. -/
def lookupA {α : Type} : List (String × α) → String → Option α
  | [], _ => none
  | (k, v) :: t, key => if k = key then some v else lookupA t key

/-- Key assignment (`obj[key] = v`): replace in place or append. -/
def insertA {α : Type} : List (String × α) → String → α → List (String × α)
  | [], key, v => [(key, v)]
  | (k, w) :: t, key, v => if k = key then (key, v) :: t else (k, w) :: insertA t key v

/-- Key deletion (`delete obj[key]`). -/
def eraseA {α : Type} (l : List (String × α)) (key : String) : List (String × α) :=
  l.filter (fun p => decide (p.1 ≠ key))

/-- The mutable detector state (stats counters and the status-log timer
are observability only and omitted). -/
structure DetectorState where
  selfContext : String
  selfFullContext : String
  alarmActive : Bool
  collisions : List (String × ThreatRecord)
  previousPositions : List (String × PrevPos)
  callCount : ℕ

/-- `cleanupStalePositions` (src/index.js lines 1024-1041): drop entries
older than twice the freshness timeout (entries with falsy timestamp are
kept, as in the source). -/
def cleanupStalePositions (opts : Options) (now : ℝ) (s : DetectorState) : DetectorState :=
  let maxAge := opts.posFreshBefore * 1000 * 2
  { s with previousPositions := s.previousPositions.filter (fun p =>
      !(decide (p.2.timestamp ≠ 0) && decide (now - p.2.timestamp > maxAge))) }

/-- `checkPositionJump` (src/index.js lines 666-699): returns the jump
flag and the updated state (recording the current position subject to the
tracking limit, with a cleanup sweep on capacity pressure). -/
def checkPositionJump (opts : Options) (now : ℝ) (vesselId : String)
    (currentData : VesselData) (s : DetectorState) : Bool × DetectorState :=
  let previousData := lookupA s.previousPositions vesselId
  if detectPositionJump currentData previousData then (true, s)
  else
    match currentData.position with
    | none => (false, s)
    | some pos =>
      if VESSEL_TRACKING_LIMIT ≤ s.previousPositions.length ∧
          lookupA s.previousPositions vesselId = none then
        let s1 := cleanupStalePositions opts now s
        if VESSEL_TRACKING_LIMIT ≤ s1.previousPositions.length then (false, s1)
        else
          let recorded := insertA s1.previousPositions vesselId ⟨pos, currentData.timestamp⟩
          (false, { s1 with previousPositions := recorded })
      else
        let recorded := insertA s.previousPositions vesselId ⟨pos, currentData.timestamp⟩
        (false, { s with previousPositions := recorded })

/-! ### Alarm state machine (`updateAlarmState`, src/index.js lines 930-941) -/

/-- A notification published by `publishCollisionNotification`: activation
carries the current threat map, deactivation a cleared/normal indicator. -/
inductive AlarmEvent
  | activated (threats : List (String × ThreatRecord))
  | cleared

/-- `updateAlarmState` (src/index.js lines 930-941) together with the
notification it publishes: given the current alarm flag, the current
collision map, and `shouldBeActive`, return the new flag and the emitted
event (at most one, only on a transition). -/
def updateAlarmState (alarmActive : Bool) (collisions : List (String × ThreatRecord))
    (shouldBeActive : Bool) : Bool × Option AlarmEvent :=
  if shouldBeActive && !alarmActive then (true, some (AlarmEvent.activated collisions))
  else if !shouldBeActive && alarmActive then (false, some AlarmEvent.cleared)
  else (alarmActive, none)

/-- `removeCollision` (src/index.js lines 920-925). -/
def removeCollision (s : DetectorState) (vesselId : String) : DetectorState :=
  if (lookupA s.collisions vesselId).isSome then
    let collisions := eraseA s.collisions vesselId
    { s with
      collisions := collisions
      alarmActive := (updateAlarmState s.alarmActive collisions (!collisions.isEmpty)).1 }
  else s

/-- `cleanupStaleCollisions` (src/index.js lines 1046-1063): re-fetch each
tracked threat's snapshot and drop it when unavailable or stale; the alarm
is re-derived only when something was dropped. -/
def cleanupStaleCollisions (opts : Options) (provider : String → Option VesselData)
    (now : ℝ) (s : DetectorState) : DetectorState :=
  let kept := s.collisions.filter (fun p =>
    match provider ("vessels." ++ p.1) with
    | none => false
    | some vesselData => isDataFresh opts now vesselData)
  if kept.length < s.collisions.length then
    { s with
      collisions := kept
      alarmActive := (updateAlarmState s.alarmActive kept (!kept.isEmpty)).1 }
  else s

/-! ### Collision classification (src/index.js lines 704-800) -/

/-- The active CPA threshold of src/index.js lines 720-722. -/
def cpaThreshold (opts : Options) (alarmActive : Bool) : ℝ :=
  if alarmActive then opts.safePassingDistanceMeters + opts.alarmHysteresisMeters
  else opts.safePassingDistanceMeters

/-- `checkCPACollision` (src/index.js lines 704-757): the primary
CPA/TCPA classification; `some` is a threat, `none` is safe (or CPA
unavailable/diverging). -/
def checkCPACollision (opts : Options) (alarmActive : Bool)
    (selfVessel targetVessel : VesselData) : Option ThreatRecord :=
  match calculateCPA selfVessel targetVessel with
  | none => none
  | some cpaResult =>
    if cpaResult.diverging then none
    else
      let threshold := cpaThreshold opts alarmActive
      let tcpaMinutes := cpaResult.tcpaSeconds / ((60 : ℝ) : EReal)
      if cpaResult.cpaDistance > ((threshold : ℝ) : EReal) then none
      else if tcpaMinutes > ((opts.timeWindowMinutes : ℝ) : EReal) ∧
          cpaResult.parallelCourse = false then none
      else some
        { method := DetectionMethod.CPA
          cpaDistance := some cpaResult.cpaDistance
          tcpaMinutes := some tcpaMinutes
          relativeSpeed := some cpaResult.relativeSpeed
          parallelCourse := cpaResult.parallelCourse
          bearing := computeForwardAzimuth selfVessel.position targetVessel.position
          distance := calculateDistance selfVessel.position targetVessel.position
          targetCourse := targetVessel.course.map (fun c => c * TO_DEGREES)
          targetSpeed := targetVessel.speed }

/-- `checkGeometricCollision` (src/index.js lines 762-800): distance-only
fallback when either vessel lacks course or speed. -/
def checkGeometricCollision (opts : Options) (alarmActive : Bool)
    (selfVessel targetVessel : VesselData) : Option ThreatRecord :=
  match selfVessel.position, targetVessel.position with
  | some _, some _ =>
    let selfHasCourse := selfVessel.course.isSome && selfVessel.speed.isSome
    let targetHasCourse := targetVessel.course.isSome && targetVessel.speed.isSome
    if selfHasCourse && targetHasCourse then none
    else
      let threshold := if alarmActive then
          opts.safePassingDistanceMeters * 2 + opts.alarmHysteresisMeters
        else opts.safePassingDistanceMeters * 2
      match calculateDistance selfVessel.position targetVessel.position with
      | none => none
      | some distance =>
        if distance < threshold then
          some { method := DetectionMethod.GEOMETRIC
                 distance := some distance
                 bearing := computeForwardAzimuth selfVessel.position targetVessel.position }
        else none
  | _, _ => none

/-! ### The triggered evaluation (`checkCollisionForVessel`,
src/index.js lines 806-915) -/

/-- JS `String.prototype.split('.')` over the character list. -/
def splitDot : List Char → List Char → List (List Char)
  | [], acc => [acc.reverse]
  | c :: t, acc => if c = '.' then acc.reverse :: splitDot t [] else splitDot t (c :: acc)

/-- `targetVesselContext.split('.').pop()` (src/index.js line 812). -/
def vesselIdOf (ctx : String) : String := String.mk ((splitDot ctx.data []).getLastD [])

/-- `targetVesselContext.includes('.')` (src/index.js line 808); an empty
context is also rejected by this test, as in the source (`!ctx` short
circuit). -/
def containsDot (ctx : String) : Bool := ctx.data.contains '.'

/-- Terminal outcomes of one triggered evaluation (the spec's
`EvaluationOutcome`); the source encodes them as distinct early returns. -/
inductive Outcome
  | badContext
  | noData
  | stale
  | invalid
  | jumped
  | outOfRange
  | threat
  | safe
deriving DecidableEq

/-- `checkCollisionForVessel` (src/index.js lines 806-915): one complete
triggered evaluation against a snapshot provider (`getVesselData` results
keyed by context), returning the updated state and the outcome. -/
def checkCollisionForVessel (opts : Options) (provider : String → Option VesselData)
    (now : ℝ) (targetVesselContext : String) (s0 : DetectorState) :
    DetectorState × Outcome :=
  if containsDot targetVesselContext = false then (s0, Outcome.badContext)
  else
    let vesselId := vesselIdOf targetVesselContext
    if vesselId = "" ∨ vesselId = "vessels" then (s0, Outcome.badContext)
    else
      let s1 := { s0 with callCount := s0.callCount + 1 }
      let s2 := if s1.callCount % CLEANUP_FREQUENCY = 0 then
          cleanupStaleCollisions opts provider now (cleanupStalePositions opts now s1)
        else s1
      match provider s2.selfFullContext with
      | none => (s2, Outcome.noData)
      | some selfVessel =>
        if isDataFresh opts now selfVessel = false then (s2, Outcome.stale)
        else if validateVesselData selfVessel = false then (s2, Outcome.invalid)
        else
          match provider targetVesselContext with
          | none => (removeCollision s2 vesselId, Outcome.noData)
          | some targetVessel =>
            if isDataFresh opts now targetVessel = false then
              (removeCollision s2 vesselId, Outcome.stale)
            else if validateVesselData targetVessel = false then
              (removeCollision s2 vesselId, Outcome.invalid)
            else
              let jump := checkPositionJump opts now vesselId targetVessel s2
              if jump.1 then (jump.2, Outcome.jumped)
              else
                let s3 := jump.2
                match calculateDistance selfVessel.position targetVessel.position with
                | none => (removeCollision s3 vesselId, Outcome.outOfRange)
                | some distance =>
                  if distance > opts.rangeMeters then
                    (removeCollision s3 vesselId, Outcome.outOfRange)
                  else
                    let collision :=
                      match checkCPACollision opts s3.alarmActive selfVessel targetVessel with
                      | some c => some c
                      | none => checkGeometricCollision opts s3.alarmActive selfVessel targetVessel
                    match collision with
                    | some c =>
                      let collisions := insertA s3.collisions vesselId
                        { c with
                          vesselId := vesselId
                          position := targetVessel.position }
                      ({ s3 with
                          collisions := collisions
                          alarmActive :=
                            (updateAlarmState s3.alarmActive collisions (!collisions.isEmpty)).1 },
                        Outcome.threat)
                    | none =>
                      let collisions := eraseA s3.collisions vesselId
                      ({ s3 with
                          collisions := collisions
                          alarmActive :=
                            (updateAlarmState s3.alarmActive collisions (!collisions.isEmpty)).1 },
                        Outcome.safe)

end

/-! ### Theorems -/

/-- C1: for vessels with present (finite) position, course and speed whose
raw TCPA is negative while the relative speed is at or above the 0.01 m/s
floor, `calculateCPA` returns `diverging = true`,
`cpaDistance = +Infinity` (`⊤`) and `tcpaSeconds` reported as `0`. -/
theorem calculateCPA_diverging (v1 v2 : VesselData) (p1 p2 : Position)
    (c1 s1 c2 s2 : ℝ)
    (hp1 : v1.position = some p1) (hp2 : v2.position = some p2)
    (hc1 : v1.course = some c1) (hs1 : v1.speed = some s1)
    (hc2 : v2.course = some c2) (hs2 : v2.speed = some s2)
    (hfloor : ¬ relSpeedOf c1 s1 c2 s2 < RELATIVE_VELOCITY_FLOOR)
    (hneg : rawTcpaOf p1 p2 c1 s1 c2 s2 < 0) :
    calculateCPA v1 v2 = some
      { cpaDistance := ⊤
        tcpaSeconds := (0 : EReal)
        diverging := true
        relativeSpeed := relSpeedOf c1 s1 c2 s2
        parallelCourse := false } := by
  simp only [calculateCPA, hp1, hp2, hc1, hs1, hc2, hs2]
  rw [cpaCore, if_neg hfloor, if_pos hneg]

/-- Witness for C1: two vessels one degree of latitude apart, sailing
directly away from each other at 5 m/s each. -/
theorem calculateCPA_diverging_witness :
    (¬ relSpeedOf 0 5 Real.pi 5 < RELATIVE_VELOCITY_FLOOR) ∧
    rawTcpaOf ⟨0, 0⟩ ⟨-1, 0⟩ 0 5 Real.pi 5 < 0 ∧
    calculateCPA ⟨some ⟨0, 0⟩, some 0, some 5, 0⟩ ⟨some ⟨-1, 0⟩, some Real.pi, some 5, 0⟩ =
      some
        { cpaDistance := ⊤
          tcpaSeconds := (0 : EReal)
          diverging := true
          relativeSpeed := relSpeedOf 0 5 Real.pi 5
          parallelCourse := false } := by
  have hrv : relSpeedOf 0 5 Real.pi 5 = 10 := by
    simp only [relSpeedOf, relVelX, relVelY, Real.sin_pi, Real.cos_pi, Real.sin_zero,
      Real.cos_zero]
    rw [show (5 * 0 - 5 * 0) * (5 * 0 - 5 * 0) + (5 * -1 - 5 * 1) * (5 * -1 - 5 * 1) =
      (10 : ℝ) * 10 by norm_num]
    exact Real.sqrt_mul_self (by norm_num)
  have hfloor : ¬ relSpeedOf 0 5 Real.pi 5 < RELATIVE_VELOCITY_FLOOR := by
    rw [hrv, RELATIVE_VELOCITY_FLOOR]; norm_num
  have hneg : rawTcpaOf ⟨0, 0⟩ ⟨-1, 0⟩ 0 5 Real.pi 5 < 0 := by
    simp only [rawTcpaOf, relPosX, relPosY, relVelX, relVelY, Real.sin_pi, Real.cos_pi,
      Real.sin_zero, Real.cos_zero, ANGLE_TO_RAD, MEAN_RADIUS_M]
    have hpi := Real.pi_gt_three
    apply div_neg_of_neg_of_pos <;> nlinarith
  exact ⟨hfloor, hneg,
    calculateCPA_diverging _ _ _ _ _ _ _ _ rfl rfl rfl rfl rfl rfl hfloor hneg⟩

/-- C2: for vessels with present position, course and speed whose relative
speed is below the 0.01 m/s floor, `calculateCPA` returns
`parallelCourse = true`, `diverging = false`, `tcpaSeconds = +Infinity`,
and `cpaDistance` equal to the current separation as actually computed by
the code — the tangent-plane magnitude `currentDistOf` of the relative
position (the spec's haversine figure up to numerical tolerance). -/
theorem calculateCPA_parallel (v1 v2 : VesselData) (p1 p2 : Position)
    (c1 s1 c2 s2 : ℝ)
    (hp1 : v1.position = some p1) (hp2 : v2.position = some p2)
    (hc1 : v1.course = some c1) (hs1 : v1.speed = some s1)
    (hc2 : v2.course = some c2) (hs2 : v2.speed = some s2)
    (hfloor : relSpeedOf c1 s1 c2 s2 < RELATIVE_VELOCITY_FLOOR) :
    calculateCPA v1 v2 = some
      { cpaDistance := ((currentDistOf p1 p2 : ℝ) : EReal)
        tcpaSeconds := ⊤
        diverging := false
        relativeSpeed := 0
        parallelCourse := true } := by
  simp only [calculateCPA, hp1, hp2, hc1, hs1, hc2, hs2]
  rw [cpaCore, if_pos hfloor]

/-- Witness for C2: two stationary vessels 0.0054° of latitude apart. -/
theorem calculateCPA_parallel_witness :
    relSpeedOf 0 0 0 0 < RELATIVE_VELOCITY_FLOOR ∧
    calculateCPA ⟨some ⟨0, 0⟩, some 0, some 0, 0⟩ ⟨some ⟨0.0054, 0⟩, some 0, some 0, 0⟩ =
      some
        { cpaDistance := ((currentDistOf ⟨0, 0⟩ ⟨0.0054, 0⟩ : ℝ) : EReal)
          tcpaSeconds := ⊤
          diverging := false
          relativeSpeed := 0
          parallelCourse := true } := by
  have hfloor : relSpeedOf 0 0 0 0 < RELATIVE_VELOCITY_FLOOR := by
    simp only [relSpeedOf, relVelX, relVelY, RELATIVE_VELOCITY_FLOOR]
    rw [show ((0:ℝ) * Real.sin 0 - 0 * Real.sin 0) * (0 * Real.sin 0 - 0 * Real.sin 0) +
      (0 * Real.cos 0 - 0 * Real.cos 0) * (0 * Real.cos 0 - 0 * Real.cos 0) = 0 by ring,
      Real.sqrt_zero]
    norm_num
  exact ⟨hfloor,
    calculateCPA_parallel _ _ _ _ _ _ _ _ rfl rfl rfl rfl rfl rfl hfloor⟩

/-- C10 (implicit): in the same-velocity branch the reported
`relativeSpeed` is exactly `0`, even when the true relative speed
`relSpeedOf` is strictly positive (any value in `(0, 0.01)`), so the
reported relative speed is not the computed magnitude there. -/
theorem calculateCPA_relativeSpeed_zeroed (v1 v2 : VesselData) (p1 p2 : Position)
    (c1 s1 c2 s2 : ℝ)
    (hp1 : v1.position = some p1) (hp2 : v2.position = some p2)
    (hc1 : v1.course = some c1) (hs1 : v1.speed = some s1)
    (hc2 : v2.course = some c2) (hs2 : v2.speed = some s2)
    (hpos : 0 < relSpeedOf c1 s1 c2 s2)
    (hfloor : relSpeedOf c1 s1 c2 s2 < RELATIVE_VELOCITY_FLOOR) :
    ∃ r : CPAResult, calculateCPA v1 v2 = some r ∧ r.relativeSpeed = 0 ∧
      r.relativeSpeed ≠ relSpeedOf c1 s1 c2 s2 := by
  refine ⟨_, calculateCPA_parallel v1 v2 p1 p2 c1 s1 c2 s2 hp1 hp2 hc1 hs1 hc2 hs2 hfloor,
    rfl, ?_⟩
  intro h
  exact absurd (h ▸ hpos) (lt_irrefl _)

/-- Witness for C10: one vessel stationary, the other moving at
0.005 m/s; the true relative speed 0.005 is in `(0, 0.01)` but the
reported one is `0`. -/
theorem calculateCPA_relativeSpeed_zeroed_witness :
    0 < relSpeedOf 0 0 0 0.005 ∧
    relSpeedOf 0 0 0 0.005 < RELATIVE_VELOCITY_FLOOR ∧
    ∃ r : CPAResult,
      calculateCPA ⟨some ⟨0, 0⟩, some 0, some 0, 0⟩ ⟨some ⟨0, 0⟩, some 0, some 0.005, 0⟩ =
        some r ∧ r.relativeSpeed = 0 ∧ r.relativeSpeed ≠ relSpeedOf 0 0 0 0.005 := by
  have hrv : relSpeedOf 0 0 0 0.005 = 0.005 := by
    simp only [relSpeedOf, relVelX, relVelY, Real.sin_zero, Real.cos_zero]
    rw [show ((0.005:ℝ) * 0 - 0 * 0) * (0.005 * 0 - 0 * 0) +
      (0.005 * 1 - 0 * 1) * (0.005 * 1 - 0 * 1) = (0.005 : ℝ) * 0.005 by ring]
    exact Real.sqrt_mul_self (by norm_num)
  have hpos : 0 < relSpeedOf 0 0 0 0.005 := by rw [hrv]; norm_num
  have hfloor : relSpeedOf 0 0 0 0.005 < RELATIVE_VELOCITY_FLOOR := by
    rw [hrv, RELATIVE_VELOCITY_FLOOR]; norm_num
  exact ⟨hpos, hfloor,
    calculateCPA_relativeSpeed_zeroed _ _ _ _ _ _ _ _ rfl rfl rfl rfl rfl rfl hpos hfloor⟩

/-! #### Helper lemmas -/

theorem ereal_coe_div_coe (x y : ℝ) : (x : EReal) / (y : EReal) = ((x / y : ℝ) : EReal) := by
  rw [div_eq_mul_inv, ← EReal.coe_inv, ← EReal.coe_mul, div_eq_mul_inv]

theorem ereal_top_div_pos {y : ℝ} (hy : 0 < y) : (⊤ : EReal) / (y : EReal) = ⊤ := by
  rw [div_eq_mul_inv, ← EReal.coe_inv]
  exact EReal.top_mul_of_pos (EReal.coe_pos.mpr (inv_pos.mpr hy))

theorem insertA_length {α : Type} (l : List (String × α)) (k : String) (v : α) :
    (insertA l k v).length =
      if (lookupA l k).isSome then l.length else l.length + 1 := by
  induction l with
  | nil => simp [insertA, lookupA]
  | cons p t ih =>
    obtain ⟨k0, v0⟩ := p
    by_cases h : k0 = k
    · simp [insertA, lookupA, h]
    · simp only [insertA, lookupA, if_neg h, List.length_cons, ih]
      split_ifs <;> omega

theorem lookupA_eq_none {α : Type} (l : List (String × α)) (k : String)
    (h : ∀ p ∈ l, p.1 ≠ k) : lookupA l k = none := by
  induction l with
  | nil => rfl
  | cons p t ih =>
    obtain ⟨k0, v0⟩ := p
    simp only [lookupA, if_neg (h _ (List.mem_cons_self _ _))]
    exact ih fun q hq => h q (List.mem_cons_of_mem _ hq)

theorem cleanupStalePositions_length_le (opts : Options) (now : ℝ) (s : DetectorState) :
    (cleanupStalePositions opts now s).previousPositions.length ≤
      s.previousPositions.length := by
  simp only [cleanupStalePositions]
  exact List.length_filter_le _ _

/-! #### Claim C8 -/

/-- C8, amended: for a snapshot carrying a course, `validateVesselUpdate`
reports the course violation iff the course lies outside the CLOSED
interval `[0, 2π]` (the source tests `course > 2 * Math.PI`, not `≥`). -/
theorem validateVesselUpdate_course (v : VesselData) (c : ℝ) (hc : v.course = some c) :
    Violation.courseOutOfRange ∈ validateVesselUpdate v ↔ (c < 0 ∨ c > 2 * Real.pi) := by
  obtain ⟨pos, course, speed, ts⟩ := v
  simp only at hc
  subst hc
  unfold validateVesselUpdate
  cases pos <;> cases speed <;>
    simp only [List.mem_append, List.mem_singleton] <;>
    split_ifs <;> simp_all

/-- Counterexample to C8 as stated: the course `2π` lies outside the
half-open interval `[0, 2π)` demanded by the claim, yet the code reports
no violation for it. -/
theorem validateVesselUpdate_course_twoPi_counterexample :
    ¬ (2 * Real.pi < 2 * Real.pi) ∧
    validateVesselUpdate ⟨some ⟨0, 0⟩, some (2 * Real.pi), none, 0⟩ = [] := by
  refine ⟨lt_irrefl _, ?_⟩
  have h1 : ¬ ((2 * Real.pi < 0) ∨ (2 * Real.pi > 2 * Real.pi)) := by
    push_neg
    exact ⟨by positivity, le_refl _⟩
  have h2 : ¬ (|(0 : ℝ)| > LAT_BOUND) := by rw [LAT_BOUND]; norm_num
  have h3 : ¬ (|(0 : ℝ)| > LON_BOUND) := by rw [LON_BOUND]; norm_num
  simp [validateVesselUpdate, h1, h2, h3]
  refine ⟨?_, ?_, Real.pi_pos.le⟩
  · rw [LAT_BOUND]; norm_num
  · rw [LON_BOUND]; norm_num

/-- Witness for the amended C8 at course `7 > 2π`. -/
theorem validateVesselUpdate_course_witness :
    Violation.courseOutOfRange ∈
        validateVesselUpdate ⟨some ⟨0, 0⟩, some 7, none, 0⟩ ↔
      ((7 : ℝ) < 0 ∨ (7 : ℝ) > 2 * Real.pi) :=
  validateVesselUpdate_course _ 7 rfl

/-! #### Claim C9 -/

/-- C9: the `previousPositions` store never exceeds the tracking limit:
any state within the limit stays within it after `checkPositionJump`, and
an insert for a new vessel at capacity first runs the cleanup sweep and,
if the store is still at capacity, silently skips recording (returning
`false`, so classification proceeds) with the state exactly the cleaned
state. -/
theorem previousPositions_bounded :
    (∀ (opts : Options) (now : ℝ) (vesselId : String) (currentData : VesselData)
        (s : DetectorState),
      s.previousPositions.length ≤ VESSEL_TRACKING_LIMIT →
      (checkPositionJump opts now vesselId currentData s).2.previousPositions.length ≤
        VESSEL_TRACKING_LIMIT) ∧
    (∀ (opts : Options) (now : ℝ) (vesselId : String) (currentData : VesselData)
        (s : DetectorState) (pos : Position),
      currentData.position = some pos →
      VESSEL_TRACKING_LIMIT ≤ s.previousPositions.length →
      lookupA s.previousPositions vesselId = none →
      VESSEL_TRACKING_LIMIT ≤ (cleanupStalePositions opts now s).previousPositions.length →
      checkPositionJump opts now vesselId currentData s =
        (false, cleanupStalePositions opts now s)) := by
  constructor
  · intro opts now vesselId currentData s hle
    cases hdet : detectPositionJump currentData (lookupA s.previousPositions vesselId) with
    | true => simpa [checkPositionJump, hdet] using hle
    | false =>
      cases hp : currentData.position with
      | none => simpa [checkPositionJump, hdet, hp] using hle
      | some pos =>
        by_cases hcap : VESSEL_TRACKING_LIMIT ≤ s.previousPositions.length ∧
            lookupA s.previousPositions vesselId = none
        · by_cases hstill : VESSEL_TRACKING_LIMIT ≤
              (cleanupStalePositions opts now s).previousPositions.length
          · simp only [checkPositionJump, hdet, hp]
            rw [if_pos hcap, if_pos hstill]
            simpa using le_trans (cleanupStalePositions_length_le opts now s) hle
          · simp only [checkPositionJump, hdet, hp]
            rw [if_pos hcap, if_neg hstill]
            show (insertA (cleanupStalePositions opts now s).previousPositions vesselId
              ⟨pos, currentData.timestamp⟩).length ≤ VESSEL_TRACKING_LIMIT
            rw [insertA_length]
            push_neg at hstill
            split_ifs <;> omega
        · simp only [checkPositionJump, hdet, hp]
          rw [if_neg hcap]
          show (insertA s.previousPositions vesselId
            ⟨pos, currentData.timestamp⟩).length ≤ VESSEL_TRACKING_LIMIT
          rw [insertA_length]
          rcases not_and_or.mp hcap with h | h
          · push_neg at h
            split_ifs <;> omega
          · have hs : (lookupA s.previousPositions vesselId).isSome :=
              Option.ne_none_iff_isSome.mp h
            rw [if_pos hs]
            exact hle
  · intro opts now vesselId currentData s pos hp hfull hlook hstill
    have hdet : detectPositionJump currentData (lookupA s.previousPositions vesselId) = false := by
      rw [hlook]
      rfl
    have hcap : VESSEL_TRACKING_LIMIT ≤ s.previousPositions.length ∧
        lookupA s.previousPositions vesselId = none := ⟨hfull, hlook⟩
    simp only [checkPositionJump, hdet, hp]
    rw [if_pos hcap, if_pos hstill]
    simp

/-- Witness for C9: the invariant at an empty store, and the
at-capacity skip at a store with 1000 fresh entries. -/
theorem previousPositions_bounded_witness :
    (checkPositionJump ⟨500, 200, 10, 18520, 600⟩ 0 "b" ⟨some ⟨0, 0⟩, none, none, 5⟩
        ⟨"self", "vessels.self", false, [], [], 0⟩).2.previousPositions.length ≤
      VESSEL_TRACKING_LIMIT ∧
    checkPositionJump ⟨500, 200, 10, 18520, 600⟩ 0 "b" ⟨some ⟨0, 0⟩, none, none, 5⟩
        ⟨"self", "vessels.self", false, [], List.replicate 1000 ("a", ⟨⟨0, 0⟩, 1⟩), 0⟩ =
      (false, cleanupStalePositions ⟨500, 200, 10, 18520, 600⟩ 0
        ⟨"self", "vessels.self", false, [], List.replicate 1000 ("a", ⟨⟨0, 0⟩, 1⟩), 0⟩) := by
  have hkeep : (cleanupStalePositions ⟨500, 200, 10, 18520, 600⟩ 0
      ⟨"self", "vessels.self", false, [], List.replicate 1000 ("a", ⟨⟨0, 0⟩, 1⟩), 0⟩
        : DetectorState).previousPositions =
      List.replicate 1000 ("a", (⟨⟨0, 0⟩, 1⟩ : PrevPos)) := by
    simp only [cleanupStalePositions]
    apply List.filter_eq_self.mpr
    intro a ha
    rw [List.eq_of_mem_replicate ha]
    have hfalse : decide ((0 : ℝ) - (1 : ℝ) > (600 : ℝ) * 1000 * 2) = false :=
      decide_eq_false (by norm_num)
    simp [hfalse]
    norm_num
  constructor
  · exact previousPositions_bounded.1 _ _ _ _ _
      (by simp only [List.length_nil, VESSEL_TRACKING_LIMIT]; omega)
  · refine previousPositions_bounded.2 _ _ _ _ _ _ rfl ?_ ?_ ?_
    · simp only [List.length_replicate, VESSEL_TRACKING_LIMIT, le_refl]
    · exact lookupA_eq_none _ _ fun p hp => by
        rw [List.eq_of_mem_replicate hp]
        decide
    · rw [hkeep]
      simp only [List.length_replicate, VESSEL_TRACKING_LIMIT, le_refl]

/-! #### Claim C5 -/

/-- C5: under the invariant that the alarm flag equals non-emptiness of
the previous threat set, `updateAlarmState` emits exactly one activation
event when the set goes empty to non-empty, exactly one clearing event
when it goes non-empty to empty, and no event when non-emptiness is
unchanged; afterwards the flag equals non-emptiness of the current set. -/
theorem updateAlarmState_transitions (prev cur : List (String × ThreatRecord))
    (alarmActive : Bool) (hinv : alarmActive = !prev.isEmpty) :
    (updateAlarmState alarmActive cur (!cur.isEmpty)).1 = !cur.isEmpty ∧
    ((updateAlarmState alarmActive cur (!cur.isEmpty)).2 =
        some (AlarmEvent.activated cur) ↔
      (prev.isEmpty = true ∧ cur.isEmpty = false)) ∧
    ((updateAlarmState alarmActive cur (!cur.isEmpty)).2 = some AlarmEvent.cleared ↔
      (prev.isEmpty = false ∧ cur.isEmpty = true)) ∧
    (prev.isEmpty = cur.isEmpty →
      (updateAlarmState alarmActive cur (!cur.isEmpty)).2 = none) := by
  subst hinv
  cases prev <;> cases cur <;> simp [updateAlarmState]

/-- Witness for C5: the empty-to-non-empty transition emits the
activation event carrying the threat map. -/
theorem updateAlarmState_transitions_witness :
    (updateAlarmState false [("target", { method := DetectionMethod.CPA })]
        (!(([(("target" : String), ({ method := DetectionMethod.CPA } : ThreatRecord))]).isEmpty))).2 =
      some (AlarmEvent.activated [("target", { method := DetectionMethod.CPA })]) :=
  (updateAlarmState_transitions [] [("target", { method := DetectionMethod.CPA })]
    false rfl).2.1.mpr ⟨rfl, rfl⟩

/-! #### Claim C3 -/

/-- C3: in the primary CPA classification, for every non-diverging CPA
result, a CPA distance above the active threshold is classified safe;
otherwise the target is a threat if and only if the TCPA in minutes is at
most the configured time window or the pair is on a parallel course (the
parallel-course flag bypasses the time-window check). -/
theorem checkCPACollision_classification (opts : Options) (alarmActive : Bool)
    (selfVessel targetVessel : VesselData) (r : CPAResult)
    (hcalc : calculateCPA selfVessel targetVessel = some r)
    (hdiv : r.diverging = false) :
    (r.cpaDistance > ((cpaThreshold opts alarmActive : ℝ) : EReal) →
      checkCPACollision opts alarmActive selfVessel targetVessel = none) ∧
    (r.cpaDistance ≤ ((cpaThreshold opts alarmActive : ℝ) : EReal) →
      ((checkCPACollision opts alarmActive selfVessel targetVessel).isSome = true ↔
        (r.tcpaSeconds / ((60 : ℝ) : EReal) ≤ ((opts.timeWindowMinutes : ℝ) : EReal) ∨
          r.parallelCourse = true))) := by
  constructor
  · intro hgt
    simp only [checkCPACollision, hcalc, hdiv, Bool.false_eq_true, if_false]
    rw [if_pos hgt]
  · intro hle
    simp only [checkCPACollision, hcalc, hdiv, Bool.false_eq_true, if_false]
    rw [if_neg (not_lt.mpr hle)]
    by_cases hw : (((opts.timeWindowMinutes : ℝ) : EReal) <
        r.tcpaSeconds / ((60 : ℝ) : EReal)) ∧ r.parallelCourse = false
    · rw [if_pos hw]
      simp only [Option.isSome_none, Bool.false_eq_true, false_iff]
      rintro (h | h)
      · exact absurd h (not_le.mpr hw.1)
      · rw [hw.2] at h
        cases h
    · rw [if_neg hw]
      simp only [Option.isSome_some, true_iff]
      rcases not_and_or.mp hw with h | h
      · exact Or.inl (not_lt.mp h)
      · right
        simpa using h

/-- Witness for C3: own vessel stationary and the target moving at 5 m/s
from the same point — CPA distance 0, TCPA 0, inside threshold and
window, hence a threat. -/
theorem checkCPACollision_classification_witness :
    calculateCPA ⟨some ⟨0, 0⟩, some 0, some 0, 0⟩ ⟨some ⟨0, 0⟩, some 0, some 5, 0⟩ =
      some { cpaDistance := ((0 : ℝ) : EReal), tcpaSeconds := ((0 : ℝ) : EReal),
             diverging := false, relativeSpeed := relSpeedOf 0 0 0 5,
             parallelCourse := false } ∧
    (checkCPACollision ⟨500, 200, 10, 18520, 600⟩ true
        ⟨some ⟨0, 0⟩, some 0, some 0, 0⟩ ⟨some ⟨0, 0⟩, some 0, some 5, 0⟩).isSome = true := by
  have hx0 : relPosX ⟨0, 0⟩ ⟨0, 0⟩ = 0 := by simp [relPosX]
  have hy0 : relPosY ⟨0, 0⟩ ⟨0, 0⟩ = 0 := by simp [relPosY]
  have hraw : rawTcpaOf ⟨0, 0⟩ ⟨0, 0⟩ 0 0 0 5 = 0 := by
    rw [rawTcpaOf, hx0, hy0]
    simp
  have hspeed : relSpeedOf 0 0 0 5 = 5 := by
    simp only [relSpeedOf, relVelX, relVelY, Real.sin_zero, Real.cos_zero]
    rw [show ((5 : ℝ) * 0 - 0 * 0) * (5 * 0 - 0 * 0) + (5 * 1 - 0 * 1) * (5 * 1 - 0 * 1) =
      (5 : ℝ) * 5 by norm_num]
    exact Real.sqrt_mul_self (by norm_num)
  have hcalc : calculateCPA ⟨some ⟨0, 0⟩, some 0, some 0, 0⟩ ⟨some ⟨0, 0⟩, some 0, some 5, 0⟩ =
      some { cpaDistance := ((0 : ℝ) : EReal), tcpaSeconds := ((0 : ℝ) : EReal),
             diverging := false, relativeSpeed := relSpeedOf 0 0 0 5,
             parallelCourse := false } := by
    simp only [calculateCPA]
    rw [cpaCore, if_neg (by rw [hspeed, RELATIVE_VELOCITY_FLOOR]; norm_num),
      if_neg (by rw [hraw]; exact lt_irrefl 0)]
    simp [hx0, hy0, hraw, Real.sqrt_zero]
  refine ⟨hcalc, ?_⟩
  have hle : ((0 : ℝ) : EReal) ≤
      ((cpaThreshold ⟨500, 200, 10, 18520, 600⟩ true : ℝ) : EReal) := by
    rw [show cpaThreshold ⟨500, 200, 10, 18520, 600⟩ true = (500 : ℝ) + 200 from by
      simp [cpaThreshold]]
    rw [EReal.coe_le_coe_iff]
    norm_num
  refine ((checkCPACollision_classification _ true _ _ _ hcalc rfl).2 hle).mpr (Or.inl ?_)
  show ((0 : ℝ) : EReal) / ((60 : ℝ) : EReal) ≤ (((10 : ℝ)) : EReal)
  rw [ereal_coe_div_coe, EReal.coe_le_coe_iff]
  norm_num

/-! #### Claim C4 -/

/-- C4: the CPA threshold is safe-passing-distance plus hysteresis when
the global alarm is active and safe-passing-distance alone when it is not;
a non-diverging result whose CPA distance lies strictly between the two
thresholds and which passes the time-window gate is a threat while the
alarm is active but not when the same evaluation runs with the alarm
inactive. -/
theorem cpa_hysteresis (opts : Options) (selfVessel targetVessel : VesselData) (r : CPAResult)
    (hcalc : calculateCPA selfVessel targetVessel = some r)
    (hdiv : r.diverging = false)
    (hlow : ((opts.safePassingDistanceMeters : ℝ) : EReal) < r.cpaDistance)
    (hhigh : r.cpaDistance <
      (((opts.safePassingDistanceMeters + opts.alarmHysteresisMeters : ℝ)) : EReal))
    (hwin : r.tcpaSeconds / ((60 : ℝ) : EReal) ≤ ((opts.timeWindowMinutes : ℝ) : EReal) ∨
      r.parallelCourse = true) :
    cpaThreshold opts true = opts.safePassingDistanceMeters + opts.alarmHysteresisMeters ∧
    cpaThreshold opts false = opts.safePassingDistanceMeters ∧
    (checkCPACollision opts true selfVessel targetVessel).isSome = true ∧
    checkCPACollision opts false selfVessel targetVessel = none := by
  have ht : cpaThreshold opts true = opts.safePassingDistanceMeters +
      opts.alarmHysteresisMeters := by simp [cpaThreshold]
  have hf : cpaThreshold opts false = opts.safePassingDistanceMeters := by
    simp [cpaThreshold]
  refine ⟨ht, hf, ?_, ?_⟩
  · simp only [checkCPACollision, hcalc, hdiv, Bool.false_eq_true, if_false]
    rw [ht, if_neg (not_lt.mpr hhigh.le), if_neg ?_]
    · rfl
    · rintro ⟨h1, h2⟩
      rcases hwin with h | h
      · exact absurd h (not_le.mpr h1)
      · rw [h] at h2
        cases h2
  · simp only [checkCPACollision, hcalc, hdiv, Bool.false_eq_true, if_false]
    rw [hf, if_pos hlow]

/-- Witness for C4: stationary parallel pair separated by about 600 m with
a 500 m safe distance and 200 m hysteresis — a threat only while the
alarm is already active. -/
theorem cpa_hysteresis_witness :
    calculateCPA ⟨some ⟨0, 0⟩, some 0, some 0, 0⟩ ⟨some ⟨0.0054, 0⟩, some 0, some 0, 0⟩ =
      some { cpaDistance := ((currentDistOf ⟨0, 0⟩ ⟨0.0054, 0⟩ : ℝ) : EReal)
             tcpaSeconds := ⊤
             diverging := false
             relativeSpeed := 0
             parallelCourse := true } ∧
    (checkCPACollision ⟨500, 200, 10, 18520, 600⟩ true
        ⟨some ⟨0, 0⟩, some 0, some 0, 0⟩ ⟨some ⟨0.0054, 0⟩, some 0, some 0, 0⟩).isSome = true ∧
    checkCPACollision ⟨500, 200, 10, 18520, 600⟩ false
        ⟨some ⟨0, 0⟩, some 0, some 0, 0⟩ ⟨some ⟨0.0054, 0⟩, some 0, some 0, 0⟩ = none := by
  have hfloor : relSpeedOf 0 0 0 0 < RELATIVE_VELOCITY_FLOOR := by
    simp only [relSpeedOf, relVelX, relVelY, RELATIVE_VELOCITY_FLOOR]
    rw [show ((0 : ℝ) * Real.sin 0 - 0 * Real.sin 0) * (0 * Real.sin 0 - 0 * Real.sin 0) +
      (0 * Real.cos 0 - 0 * Real.cos 0) * (0 * Real.cos 0 - 0 * Real.cos 0) = 0 by ring,
      Real.sqrt_zero]
    norm_num
  have hcalc : calculateCPA ⟨some ⟨0, 0⟩, some 0, some 0, 0⟩
      ⟨some ⟨0.0054, 0⟩, some 0, some 0, 0⟩ =
      some { cpaDistance := ((currentDistOf ⟨0, 0⟩ ⟨0.0054, 0⟩ : ℝ) : EReal)
             tcpaSeconds := ⊤
             diverging := false
             relativeSpeed := 0
             parallelCourse := true } := by
    simp only [calculateCPA]
    rw [cpaCore, if_pos hfloor]
  have hdist : currentDistOf ⟨0, 0⟩ ⟨0.0054, 0⟩ = 0.0054 * (Real.pi / 180) * 6371008.8 := by
    have hx : relPosX ⟨0, 0⟩ ⟨0.0054, 0⟩ = 0 := by simp [relPosX]
    have hy : relPosY ⟨0, 0⟩ ⟨0.0054, 0⟩ = 0.0054 * (Real.pi / 180) * 6371008.8 := by
      rw [relPosY, ANGLE_TO_RAD, MEAN_RADIUS_M]
      ring
    rw [currentDistOf, hx, hy]
    rw [show (0 : ℝ) * 0 + (0.0054 * (Real.pi / 180) * 6371008.8) *
      (0.0054 * (Real.pi / 180) * 6371008.8) =
      (0.0054 * (Real.pi / 180) * 6371008.8) * (0.0054 * (Real.pi / 180) * 6371008.8) by
        ring]
    exact Real.sqrt_mul_self (by positivity)
  have hlowb : (500 : ℝ) < 0.0054 * (Real.pi / 180) * 6371008.8 := by
    nlinarith [Real.pi_gt_three]
  have hhighb : (0.0054 : ℝ) * (Real.pi / 180) * 6371008.8 < 700 := by
    nlinarith [Real.pi_lt_d2]
  have h := cpa_hysteresis ⟨500, 200, 10, 18520, 600⟩ _ _ _ hcalc rfl
    (by
      rw [EReal.coe_lt_coe_iff, hdist]
      show (500 : ℝ) < 0.0054 * (Real.pi / 180) * 6371008.8
      exact hlowb)
    (by
      rw [EReal.coe_lt_coe_iff, hdist]
      show (0.0054 : ℝ) * (Real.pi / 180) * 6371008.8 < 500 + 200
      linarith)
    (Or.inr rfl)
  exact ⟨hcalc, h.2.2.1, h.2.2.2⟩

/-! #### Claim C6 -/

/-- C6, amended: off the cleanup cadence, the freshness gate is applied to
the self snapshot and then to the target snapshot, and either failure
terminates the evaluation with the `stale` outcome; the target's existing
threat record is cleared (`removeCollision`) when the TARGET snapshot is
stale, while a stale SELF snapshot terminates without touching the threat
store. -/
theorem checkCollisionForVessel_stale_gates (opts : Options)
    (provider : String → Option VesselData) (now : ℝ) (ctx : String) (s : DetectorState)
    (hdot : containsDot ctx = true)
    (hvid1 : vesselIdOf ctx ≠ "") (hvid2 : vesselIdOf ctx ≠ "vessels")
    (hcad : ¬ (s.callCount + 1) % CLEANUP_FREQUENCY = 0) :
    (∀ selfVessel, provider s.selfFullContext = some selfVessel →
      isDataFresh opts now selfVessel = false →
      checkCollisionForVessel opts provider now ctx s =
        ({ s with callCount := s.callCount + 1 }, Outcome.stale)) ∧
    (∀ selfVessel targetVessel, provider s.selfFullContext = some selfVessel →
      isDataFresh opts now selfVessel = true →
      validateVesselData selfVessel = true →
      provider ctx = some targetVessel →
      isDataFresh opts now targetVessel = false →
      checkCollisionForVessel opts provider now ctx s =
        (removeCollision { s with callCount := s.callCount + 1 } (vesselIdOf ctx),
          Outcome.stale)) := by
  have hc1 : ¬ (containsDot ctx = false) := by simp [hdot]
  have hc2 : ¬ (vesselIdOf ctx = "" ∨ vesselIdOf ctx = "vessels") :=
    not_or.mpr ⟨hvid1, hvid2⟩
  constructor
  · intro selfVessel hself hfresh
    simp only [checkCollisionForVessel, if_neg hc1, if_neg hc2, if_neg hcad, hself]
    rw [if_pos hfresh]
  · intro selfVessel targetVessel hself hfresh1 hvalid1 htgt hfresh2
    simp only [checkCollisionForVessel, if_neg hc1, if_neg hc2, if_neg hcad, hself, htgt]
    rw [if_neg (by simp [hfresh1]), if_neg (by simp [hvalid1]), if_pos hfresh2]

/-- Counterexample to C6 as stated: with a pre-existing threat record for
target `T` and a STALE self snapshot, the evaluation ends `stale` but the
target's threat record is NOT cleared (the state is unchanged except for
the call counter), contradicting "the target's existing threat record is
cleared" for either failing snapshot. -/
theorem checkCollisionForVessel_selfStale_counterexample :
    checkCollisionForVessel ⟨500, 200, 10, 18520, 600⟩
        (fun c => if c = "vessels.self" then
          some ⟨some ⟨0, 0⟩, none, none, 1000⟩ else none)
        2000000 "vessels.T"
        ⟨"self", "vessels.self", true, [("T", { method := DetectionMethod.CPA })], [], 0⟩ =
      (⟨"self", "vessels.self", true, [("T", { method := DetectionMethod.CPA })], [], 1⟩,
        Outcome.stale) ∧
    (lookupA [(("T" : String), ({ method := DetectionMethod.CPA } : ThreatRecord))]
      "T").isSome = true := by
  have hfresh : isDataFresh ⟨500, 200, 10, 18520, 600⟩ 2000000
      ⟨some ⟨0, 0⟩, none, none, 1000⟩ = false := by
    rw [isDataFresh, if_neg (by norm_num : ¬ ((1000 : ℝ) = 0)), if_neg]
    rintro ⟨-, h⟩
    norm_num at h
  have hc1 : ¬ (containsDot "vessels.T" = false) := by decide
  have hc2 : ¬ (vesselIdOf "vessels.T" = "" ∨ vesselIdOf "vessels.T" = "vessels") := by
    decide
  have hcad : ¬ ((0 : ℕ) + 1) % CLEANUP_FREQUENCY = 0 := by decide
  refine ⟨?_, rfl⟩
  simp only [checkCollisionForVessel, if_neg hc1, if_neg hc2, if_neg hcad, if_pos trivial]
  rw [if_pos hfresh]

/-- Witness for the amended C6: a stale self snapshot gives `stale`
without touching the store; a fresh, valid self with a stale target gives
`stale` with the target's threat removed (`removeCollision`). -/
theorem checkCollisionForVessel_stale_gates_witness :
    checkCollisionForVessel ⟨500, 200, 10, 18520, 600⟩
        (fun c => if c = "vessels.self" then
          some ⟨some ⟨0, 0⟩, none, none, 1000⟩ else none)
        2000000 "vessels.T"
        ⟨"self", "vessels.self", true, [("T", { method := DetectionMethod.CPA })], [], 0⟩ =
      (({ (⟨"self", "vessels.self", true, [("T", { method := DetectionMethod.CPA })], [], 0⟩
            : DetectorState) with callCount := 0 + 1 }), Outcome.stale) ∧
    checkCollisionForVessel ⟨500, 200, 10, 18520, 600⟩
        (fun c => if c = "vessels.self" then
          some ⟨some ⟨0, 0⟩, none, none, 2000000⟩
        else if c = "vessels.T" then some ⟨some ⟨0, 0⟩, none, none, 1000⟩ else none)
        2000000 "vessels.T"
        ⟨"self", "vessels.self", true, [("T", { method := DetectionMethod.CPA })], [], 0⟩ =
      (removeCollision
        ({ (⟨"self", "vessels.self", true, [("T", { method := DetectionMethod.CPA })], [], 0⟩
            : DetectorState) with callCount := 0 + 1 }) (vesselIdOf "vessels.T"),
        Outcome.stale) := by
  have hstale : isDataFresh ⟨500, 200, 10, 18520, 600⟩ 2000000
      ⟨some ⟨0, 0⟩, none, none, 1000⟩ = false := by
    rw [isDataFresh, if_neg (by norm_num : ¬ ((1000 : ℝ) = 0)), if_neg]
    rintro ⟨-, h⟩
    norm_num at h
  have hfreshSelf : isDataFresh ⟨500, 200, 10, 18520, 600⟩ 2000000
      ⟨some ⟨0, 0⟩, none, none, 2000000⟩ = true := by
    rw [isDataFresh, if_neg (by norm_num : ¬ ((2000000 : ℝ) = 0)), if_pos]
    norm_num
  have hvalidSelf : validateVesselData ⟨some ⟨0, 0⟩, none, none, 2000000⟩ = true := by
    have hvu : validateVesselUpdate ⟨some ⟨0, 0⟩, none, none, 2000000⟩ = [] := by
      have h2 : ¬ (|(0 : ℝ)| > LAT_BOUND) := by rw [LAT_BOUND]; norm_num
      have h3 : ¬ (|(0 : ℝ)| > LON_BOUND) := by rw [LON_BOUND]; norm_num
      simp [validateVesselUpdate, h2, h3]
      exact ⟨by rw [LAT_BOUND]; norm_num, by rw [LON_BOUND]; norm_num⟩
    simp [validateVesselData, hvu]
  constructor
  · exact (checkCollisionForVessel_stale_gates _ _ _ _ _ (by decide) (by decide) (by decide)
      (by decide)).1 _ (by simp) hstale
  · exact (checkCollisionForVessel_stale_gates _ _ _ _ _ (by decide) (by decide) (by decide)
      (by decide)).2 _ _ (by simp) hfreshSelf hvalidSelf (by simp) hstale

/-! #### Claim C7 -/

/-- C7, amended: off the cleanup cadence, when a position jump is detected
for the target the evaluation returns `jumped` with the threat set, the
alarm state and the position store all exactly as before (only the call
counter advances); in particular a pre-existing threat for that vessel is
not cleared.  (On the cleanup cadence the periodic sweep that runs before
the jump check may still clear other vessels' stale threats and change the
alarm — see the counterexample.) -/
theorem checkCollisionForVessel_jump_skips (opts : Options)
    (provider : String → Option VesselData) (now : ℝ) (ctx : String) (s : DetectorState)
    (hdot : containsDot ctx = true)
    (hvid1 : vesselIdOf ctx ≠ "") (hvid2 : vesselIdOf ctx ≠ "vessels")
    (hcad : ¬ (s.callCount + 1) % CLEANUP_FREQUENCY = 0)
    (selfVessel targetVessel : VesselData)
    (hself : provider s.selfFullContext = some selfVessel)
    (hfresh1 : isDataFresh opts now selfVessel = true)
    (hvalid1 : validateVesselData selfVessel = true)
    (htgt : provider ctx = some targetVessel)
    (hfresh2 : isDataFresh opts now targetVessel = true)
    (hvalid2 : validateVesselData targetVessel = true)
    (hjump : detectPositionJump targetVessel
      (lookupA s.previousPositions (vesselIdOf ctx)) = true) :
    checkCollisionForVessel opts provider now ctx s =
      ({ s with callCount := s.callCount + 1 }, Outcome.jumped) := by
  have hc1 : ¬ (containsDot ctx = false) := by simp [hdot]
  have hc2 : ¬ (vesselIdOf ctx = "" ∨ vesselIdOf ctx = "vessels") :=
    not_or.mpr ⟨hvid1, hvid2⟩
  have hjumpRun : checkPositionJump opts now (vesselIdOf ctx) targetVessel
      { s with callCount := s.callCount + 1 } =
      (true, { s with callCount := s.callCount + 1 }) := by
    simp only [checkPositionJump]
    rw [if_pos hjump]
  simp only [checkCollisionForVessel, if_neg hc1, if_neg hc2, if_neg hcad, hself, htgt]
  rw [if_neg (by simp [hfresh1]), if_neg (by simp [hvalid1]), if_neg (by simp [hfresh2]),
    if_neg (by simp [hvalid2]), hjumpRun]
  simp

/-- Evaluation helper: the haversine distance from (0°, 180°) to (0°, 0°)
is `R · π` (half the equator). -/
theorem haversineCore_antipodal :
    haversineCore ⟨0, 180⟩ ⟨0, 0⟩ = MEAN_RADIUS_M * (2 * (Real.pi / 2)) := by
  simp only [haversineCore]
  rw [show ((0 : ℝ) - 0) * ANGLE_TO_RAD = 0 by ring,
    show ((0 : ℝ) - 180) * ANGLE_TO_RAD / 2 = -(Real.pi / 2) by rw [ANGLE_TO_RAD]; ring,
    show (0 : ℝ) * ANGLE_TO_RAD = 0 by ring]
  rw [zero_div, Real.sin_zero, Real.sin_neg, Real.sin_pi_div_two, Real.cos_zero]
  rw [show (0 : ℝ) * 0 + 1 * 1 * -1 * -1 = 1 by norm_num]
  rw [show (1 : ℝ) - 1 = 0 by norm_num, Real.sqrt_one, Real.sqrt_zero]
  rw [atan2, if_neg (lt_irrefl 0), if_neg (by norm_num : ¬ ((0 : ℝ) < 0)),
    if_pos one_pos]

/-- Evaluation helper: a 180°-longitude jump within one second is
detected as a position jump. -/
theorem detectPositionJump_example : detectPositionJump
    (⟨some ⟨0, 0⟩, none, none, 1000000⟩ : VesselData)
    (some ⟨⟨0, 180⟩, 999000⟩) = true := by
  simp only [detectPositionJump]
  rw [if_neg (by norm_num : ¬ ((999000 : ℝ) = 0))]
  rw [if_neg (by norm_num : ¬ ((1000000 : ℝ) = 0)),
    if_neg (by norm_num : ¬ (((1000000 : ℝ) - 999000) / 1000 ≤ 0)),
    if_pos]
  rw [haversineCore_antipodal, MEAN_RADIUS_M, MAX_VESSEL_SPEED_MPS, JUMP_SPEED_FACTOR]
  rw [show ((1000000 : ℝ) - 999000) / 1000 = 1 by norm_num]
  rw [gt_iff_lt, show (6371008.8 : ℝ) * (2 * (Real.pi / 2)) / 1 = 6371008.8 * Real.pi by
    ring]
  nlinarith [Real.pi_gt_three]

/-- Evaluation helper: a snapshot timestamped at `now` is fresh. -/
theorem isDataFresh_example : isDataFresh ⟨500, 200, 10, 18520, 600⟩ 1000000
    ⟨some ⟨0, 0⟩, none, none, 1000000⟩ = true := by
  rw [isDataFresh, if_neg (by norm_num : ¬ ((1000000 : ℝ) = 0)), if_pos]
  norm_num

/-- Evaluation helper: a position-only snapshot at the origin is valid. -/
theorem validateVesselData_example :
    validateVesselData ⟨some ⟨0, 0⟩, none, none, 1000000⟩ = true := by
  have hvu : validateVesselUpdate ⟨some ⟨0, 0⟩, none, none, 1000000⟩ = [] := by
    have h2 : ¬ (|(0 : ℝ)| > LAT_BOUND) := by rw [LAT_BOUND]; norm_num
    have h3 : ¬ (|(0 : ℝ)| > LON_BOUND) := by rw [LON_BOUND]; norm_num
    simp [validateVesselUpdate, h2, h3]
    exact ⟨by rw [LAT_BOUND]; norm_num, by rw [LON_BOUND]; norm_num⟩
  simp [validateVesselData, hvu]

/-- Counterexample to C7 as stated: an evaluation that detects a position
jump but lands on the cleanup cadence (call 100).  The periodic sweep that
runs before the jump check clears another vessel's threat (its snapshot is
unavailable) and turns the alarm OFF, so the alarm state is NOT "left
exactly as it was before the evaluation" even though the outcome is
`jumped`.  (The initial state has `alarmActive = true`; the final state
has `alarmActive = false`.) -/
theorem checkCollisionForVessel_jump_cleanup_counterexample :
    checkCollisionForVessel ⟨500, 200, 10, 18520, 600⟩
        (fun c => if c = "vessels.self" then some ⟨some ⟨0, 0⟩, none, none, 1000000⟩
          else if c = "vessels.T" then some ⟨some ⟨0, 0⟩, none, none, 1000000⟩ else none)
        1000000 "vessels.T"
        ⟨"self", "vessels.self", true, [("B", { method := DetectionMethod.CPA })],
          [("T", ⟨⟨0, 180⟩, 999000⟩)], 99⟩ =
      (⟨"self", "vessels.self", false, [], [("T", ⟨⟨0, 180⟩, 999000⟩)], 100⟩,
        Outcome.jumped) := by
  have hc1 : ¬ (containsDot "vessels.T" = false) := by decide
  have hc2 : ¬ (vesselIdOf "vessels.T" = "" ∨ vesselIdOf "vessels.T" = "vessels") := by
    decide
  have hdetect := detectPositionJump_example
  have hfreshSelf := isDataFresh_example
  have hvalidSelf := validateVesselData_example
  have hpos : cleanupStalePositions ⟨500, 200, 10, 18520, 600⟩ 1000000
      ⟨"self", "vessels.self", true, [("B", { method := DetectionMethod.CPA })],
        [("T", ⟨⟨0, 180⟩, 999000⟩)], 99 + 1⟩ =
      ⟨"self", "vessels.self", true, [("B", { method := DetectionMethod.CPA })],
        [("T", ⟨⟨0, 180⟩, 999000⟩)], 99 + 1⟩ := by
    have d2 : decide ((1000000 : ℝ) - 999000 > 600 * 1000 * 2) = false :=
      decide_eq_false (by norm_num)
    simp [cleanupStalePositions, d2]
  have hcoll : cleanupStaleCollisions ⟨500, 200, 10, 18520, 600⟩
      (fun c => if c = "vessels.self" then some ⟨some ⟨0, 0⟩, none, none, 1000000⟩
        else if c = "vessels.T" then some ⟨some ⟨0, 0⟩, none, none, 1000000⟩ else none)
      1000000
      ⟨"self", "vessels.self", true, [("B", { method := DetectionMethod.CPA })],
        [("T", ⟨⟨0, 180⟩, 999000⟩)], 99 + 1⟩ =
      ⟨"self", "vessels.self", false, [], [("T", ⟨⟨0, 180⟩, 999000⟩)], 99 + 1⟩ := by
    simp [cleanupStaleCollisions, updateAlarmState]
  have hvidT : vesselIdOf "vessels.T" = "T" := by decide
  have hlk : lookupA [(("T" : String), (⟨⟨0, 180⟩, 999000⟩ : PrevPos))]
      (vesselIdOf "vessels.T") = some ⟨⟨0, 180⟩, 999000⟩ := by
    rw [hvidT]
    simp [lookupA]
  have hjumpRun : checkPositionJump ⟨500, 200, 10, 18520, 600⟩ 1000000
      (vesselIdOf "vessels.T") ⟨some ⟨0, 0⟩, none, none, 1000000⟩
      ⟨"self", "vessels.self", false, [], [("T", ⟨⟨0, 180⟩, 999000⟩)], 99 + 1⟩ =
      (true, ⟨"self", "vessels.self", false, [], [("T", ⟨⟨0, 180⟩, 999000⟩)], 99 + 1⟩) := by
    simp only [checkPositionJump, hlk, hdetect]
    simp
  simp only [checkCollisionForVessel, if_neg hc1, if_neg hc2]
  rw [if_pos (show (99 + 1) % CLEANUP_FREQUENCY = 0 by decide)]
  rw [hpos, hcoll]
  simp only [if_pos trivial]
  rw [if_neg (by simp [hfreshSelf]), if_neg (by simp [hvalidSelf])]
  simp [hfreshSelf, hvalidSelf, hjumpRun]

/-- Witness for the amended C7: off the cadence (call 1), a jumping target
with a pre-existing threat record yields `jumped` with the threat set,
alarm and position store untouched. -/
theorem checkCollisionForVessel_jump_skips_witness :
    checkCollisionForVessel ⟨500, 200, 10, 18520, 600⟩
        (fun c => if c = "vessels.self" then some ⟨some ⟨0, 0⟩, none, none, 1000000⟩
          else if c = "vessels.T" then some ⟨some ⟨0, 0⟩, none, none, 1000000⟩ else none)
        1000000 "vessels.T"
        ⟨"self", "vessels.self", true, [("T", { method := DetectionMethod.CPA })],
          [("T", ⟨⟨0, 180⟩, 999000⟩)], 0⟩ =
      ({ (⟨"self", "vessels.self", true, [("T", { method := DetectionMethod.CPA })],
          [("T", ⟨⟨0, 180⟩, 999000⟩)], 0⟩ : DetectorState) with callCount := 0 + 1 },
        Outcome.jumped) := by
  have hlk : lookupA [(("T" : String), (⟨⟨0, 180⟩, 999000⟩ : PrevPos))]
      (vesselIdOf "vessels.T") = some ⟨⟨0, 180⟩, 999000⟩ := by
    rw [show vesselIdOf "vessels.T" = "T" by decide]
    simp [lookupA]
  exact checkCollisionForVessel_jump_skips _ _ _ _ _ (by decide) (by decide) (by decide)
    (by decide) _ _ (by simp) isDataFresh_example validateVesselData_example (by simp)
    isDataFresh_example validateVesselData_example
    (by
      show detectPositionJump _ (lookupA [(("T" : String), (⟨⟨0, 180⟩, 999000⟩ : PrevPos))]
        (vesselIdOf "vessels.T")) = true
      rw [hlk]
      exact detectPositionJump_example)
